import Mathlib

/-!
Shallow embedding of the training control loop and checkpoint store of
`training_utils/captioning_model_trainer.py` (class `Trainer`), together
with the SCST reward computation and the mapping-construction loop of
`evaluate_metrics`.

Conventions of the embedding:
* Validation metrics (CIDEr scores, losses) are rationals.
* Opaque external blobs (model weights, RNG generator states, optimizer
  internals, scheduler internals) are carried as `Nat` tokens: the loop
  never inspects them, only moves them around.
* The checkpoint directory is an association list from file name to
  checkpoint content; `torch.save` overwrites by prepending, `torch.load`
  reads the most recent write.
* The phase enum of the spec maps to the code's `use_rl` flag:
  `SUPERVISED` is `use_rl = false`, `REINFORCEMENT` is `use_rl = true`.
-/

namespace OVIC

/-- The four process-global RNG generator states captured and restored by
`save_checkpoint` / `load_checkpoint` (torch, cuda, numpy, random). -/
structure RngState where
  torch : Nat
  cuda : Nat
  numpy : Nat
  random : Nat
  deriving Repr, DecidableEq, Inhabited

/-- An optimizer: its learning rate plus its opaque internal state
(moment estimates etc.). -/
structure Optim where
  lr : ℚ
  internal : Nat
  deriving Repr, DecidableEq, Inhabited

/-- `Adam(params, lr=...)` constructs a fresh optimizer: given learning
rate, empty internal state. -/
def Adam (lr : ℚ) : Optim :=
  { lr := lr, internal := 0 }

/-- The mutable attributes of the `Trainer` object that the control loop
and the checkpoint store touch: `self.model` weights, the global RNG
states, `self.optim`, `self.scheduler` state, `self.epoch`. -/
structure TrainerState where
  weights : Nat
  rng : RngState
  optim : Optim
  schedState : Nat
  epoch : Nat
  deriving Repr, DecidableEq

/-- The serialized checkpoint bundle written by `save_checkpoint`
(lines 252-269): RNG states, epoch, model `state_dict`, optimizer and
scheduler `state_dict`s, plus the caller-supplied scalar overrides
(`val_loss`, `val_cider`, `patience`, `best_val_cider`,
`best_test_cider`, `use_rl`). -/
structure FullCkpt where
  rng : RngState
  epoch : Nat
  state_dict : Nat
  optimizer : Optim
  scheduler : Nat
  val_loss : ℚ
  val_cider : ℚ
  patience : Nat
  best_val_cider : ℚ
  best_test_cider : ℚ
  use_rl : Bool
  deriving Repr, DecidableEq, Inhabited

/-- The scalar overrides `Trainer.train` passes to `save_checkpoint`
as `dict_for_updating` (lines 333-340). -/
structure Updates where
  val_loss : ℚ
  val_cider : ℚ
  patience : Nat
  best_val_cider : ℚ
  best_test_cider : ℚ
  use_rl : Bool
  deriving Repr, DecidableEq

/-- The checkpoint directory: an association list from file name to
checkpoint content, most recent write first. -/
def FS : Type := List (String × FullCkpt)

/-- Read a file: the most recent write to that name, `none` if absent
(`os.path.exists` / `os.path.isfile` false). -/
def fsRead : FS → String → Option FullCkpt
  | [], _ => none
  | (k, v) :: rest, p => if k = p then some v else fsRead rest p

/-- `torch.save(..., path)`: overwrite the file at `path`. -/
def fsWrite (fs : FS) (p : String) (c : FullCkpt) : FS :=
  (p, c) :: fs

/-- `shutil.copyfile(src, dst)`: duplicate the content of `src` into
`dst` (lines 342-348 copy the "last" slot into the "best" slot). -/
def copyfile (fs : FS) (src dst : String) : FS :=
  match fsRead fs src with
  | some c => fsWrite fs dst c
  | none => fs

/-- The fixed "last" slot file name, `last_model.pth` (line 269). -/
def lastPath : String := "last_model.pth"

/-- The fixed "best" slot file name, `best_model.pth` (line 348). -/
def bestPath : String := "best_model.pth"

/-- The dict `load_checkpoint` returns to its caller (lines 242-250). -/
structure LoadedDict where
  use_rl : Bool
  best_val_cider : ℚ
  best_test_cider : ℚ
  patience : Nat
  epoch : Nat
  optimizer : Optim
  scheduler : Nat
  deriving Repr, DecidableEq

/-- `Trainer.load_checkpoint(fname)` (lines 227-250): if the path does
not exist, return `None` and touch nothing.  Otherwise restore the four
RNG generator states and the model weights in place
(`load_state_dict(..., strict=False)`; weights are one opaque blob here,
so the lenient merge is the blob itself), and return the bookkeeping
dict.  `self.optim`, `self.scheduler` and `self.epoch` are NOT mutated:
their checkpointed states are only handed back in the returned dict. -/
def load_checkpoint (fs : FS) (t : TrainerState) (fname : String) :
    TrainerState × Option LoadedDict :=
  match fsRead fs fname with
  | none => (t, none)
  | some c =>
    ({ t with rng := c.rng, weights := c.state_dict },
     some { use_rl := c.use_rl, best_val_cider := c.best_val_cider,
            best_test_cider := c.best_test_cider, patience := c.patience,
            epoch := c.epoch, optimizer := c.optimizer,
            scheduler := c.scheduler })

/-- The bundle `save_checkpoint` serializes (lines 253-265):
`dict_for_saving` built from the trainer's current RNG states, epoch,
model / optimizer / scheduler `state_dict`s, then overridden key by key
with `dict_for_updating`. -/
def mkSaveDict (t : TrainerState) (u : Updates) : FullCkpt :=
  { rng := t.rng, epoch := t.epoch, state_dict := t.weights,
    optimizer := t.optim, scheduler := t.schedState,
    val_loss := u.val_loss, val_cider := u.val_cider,
    patience := u.patience, best_val_cider := u.best_val_cider,
    best_test_cider := u.best_test_cider, use_rl := u.use_rl }

/-- `Trainer.save_checkpoint(dict_for_updating)` (lines 252-269): write
the bundle to the "last" slot. -/
def save_checkpoint (fs : FS) (t : TrainerState) (u : Updates) : FS :=
  fsWrite fs lastPath (mkSaveDict t u)

/-- The policy update of lines 305-312: on `val_cider >= best_val_cider`
update best, reset patience to 0 and mark the epoch best; otherwise
increment patience.  Returns (new best_val_cider, new patience, best). -/
def policyUpdate (best_val_cider : ℚ) (patience : Nat) (val_cider : ℚ) :
    ℚ × Nat × Bool :=
  if best_val_cider ≤ val_cider then (val_cider, 0, true)
  else (best_val_cider, patience + 1, false)

/-- Result of one pass through the body of the `while True` loop of
`Trainer.train`, from line 305 (after the metrics for the epoch are in)
to line 353. -/
structure EpochResult where
  fs : FS
  trainer : TrainerState
  use_rl : Bool
  best_val_cider : ℚ
  best_test_cider : ℚ
  patience : Nat
  best : Bool
  switch_to_rl : Bool
  exit_train : Bool
  savedCkpt : FullCkpt

/-- Lines 305-353 of `Trainer.train`, the per-epoch tail after the
training pass and the evaluations: policy update, patience threshold
logic, rollback to the "best" checkpoint at the supervised-to-RL switch,
unconditional save to the "last" slot, promotion to the "best" slot on a
best epoch, exit or epoch increment. -/
def epochTail (fs : FS) (t : TrainerState) (use_rl : Bool)
    (best_val_cider best_test_cider : ℚ) (patience : Nat)
    (val_loss val_cider : ℚ) : EpochResult :=
  -- lines 305-312
  let pu := policyUpdate best_val_cider patience val_cider
  let bv2 : ℚ := pu.1
  let p2 : Nat := pu.2.1
  let best : Bool := pu.2.2
  -- lines 314-326: `if patience == 5`, branching on `use_rl`
  let switch_to_rl : Bool := decide (p2 = 5) && !use_rl
  let exit_train : Bool := decide (p2 = 5) && use_rl
  let u3 : Bool := if switch_to_rl then true else use_rl
  let p3 : Nat := if switch_to_rl then 0 else p2
  -- line 322: `self.optim = Adam(self.model.parameters(), lr=5e-6)`
  let t3 : TrainerState :=
    if switch_to_rl then { t with optim := Adam (5 / 1000000) } else t
  -- lines 328-331: `if switch_to_rl and not best: self.load_checkpoint(best_model.pth)`,
  -- return value discarded
  let t4 : TrainerState :=
    if switch_to_rl && !best then (load_checkpoint fs t3 bestPath).1 else t3
  -- lines 333-340
  let saved : FullCkpt :=
    mkSaveDict t4 ⟨val_loss, val_cider, p3, bv2, best_test_cider, u3⟩
  let fs5 : FS := fsWrite fs lastPath saved
  -- lines 342-348: `if best: copyfile(last_model.pth, best_model.pth)`
  let fs6 : FS := if best then copyfile fs5 lastPath bestPath else fs5
  -- lines 350-353: `if exit_train: break` else `self.epoch += 1`
  let t7 : TrainerState :=
    if exit_train then t4 else { t4 with epoch := t4.epoch + 1 }
  { fs := fs6, trainer := t7, use_rl := u3, best_val_cider := bv2,
    best_test_cider := best_test_cider, patience := p3, best := best,
    switch_to_rl := switch_to_rl, exit_train := exit_train,
    savedCkpt := saved }

/-- Result of the loop variables set up at the top of `Trainer.train`
(lines 271-286) before entering the `while True` loop. -/
structure InitResult where
  trainer : TrainerState
  use_rl : Bool
  best_val_cider : ℚ
  best_test_cider : ℚ
  patience : Nat
  deriving Repr, DecidableEq

/-- The fresh-start branch of lines 282-286: `use_rl = False`,
`best_val_cider = 0`, `best_test_cider = 0`, `patience = 0`; the trainer
object is left as constructed. -/
def freshInit (t : TrainerState) : InitResult :=
  { trainer := t, use_rl := false, best_val_cider := 0,
    best_test_cider := 0, patience := 0 }

/-- Lines 271-286 of `Trainer.train`: if a checkpoint file name is given
and the file exists, resume from it (restoring RNG and weights via
`load_checkpoint`, then `self.epoch`, `self.optim`, `self.scheduler`
from the returned dict); otherwise fall back to fresh state.  The
`os.path.isfile` test of line 273 coincides with the lookup succeeding. -/
def trainInit (fs : FS) (t : TrainerState) (checkpoint_filename : Option String) :
    InitResult :=
  match checkpoint_filename with
  | some f =>
    match load_checkpoint fs t f with
    | (t2, some d) =>
      let t3 := { t2 with epoch := d.epoch, optim := d.optimizer, schedState := d.scheduler }
      { trainer := t3,
        use_rl := d.use_rl, best_val_cider := d.best_val_cider,
        best_test_cider := d.best_test_cider, patience := d.patience }
    | (_, none) => freshInit t
  | none => freshInit t

/-- Final state of a bounded observation of the `while True` loop. -/
structure RunResult where
  fs : FS
  trainer : TrainerState
  ckpts : List FullCkpt

/-- The `while True` loop of `Trainer.train` (lines 288-353), observed
for as many epochs as there are entries in the metric trace.  Each trace
entry is the pair (validation loss, validation CIDEr) the epoch's
evaluations produce; the training pass and the evaluations themselves
are external and only reach the control loop through these numbers.
`ckpts` collects every checkpoint persisted by `save_checkpoint`, in
order.  The loop stops early when `exit_train` fires. -/
def runLoop (fs : FS) (t : TrainerState) (use_rl : Bool)
    (best_val_cider best_test_cider : ℚ) (patience : Nat) :
    List (ℚ × ℚ) → RunResult
  | [] => { fs := fs, trainer := t, ckpts := [] }
  | (vl, vc) :: ms =>
    let r := epochTail fs t use_rl best_val_cider best_test_cider patience vl vc
    if r.exit_train then
      { fs := r.fs, trainer := r.trainer, ckpts := [r.savedCkpt] }
    else
      let rest := runLoop r.fs r.trainer r.use_rl r.best_val_cider
                    r.best_test_cider r.patience ms
      { fs := rest.fs, trainer := rest.trainer,
        ckpts := r.savedCkpt :: rest.ckpts }

/-- `Trainer.train(checkpoint_filename)` over a metric trace: initialize
(fresh or resumed), then run the loop. -/
def train (fs : FS) (t : TrainerState) (checkpoint_filename : Option String)
    (ms : List (ℚ × ℚ)) : RunResult :=
  let i := trainInit fs t checkpoint_filename
  runLoop fs i.trainer i.use_rl i.best_val_cider i.best_test_cider i.patience ms

/-- A concrete freshly-constructed trainer object, for concrete runs. -/
def t0 : TrainerState :=
  { weights := 0, rng := ⟨0, 0, 0, 0⟩, optim := Adam 1, schedState := 0,
    epoch := 0 }

/-- The rational 0.1, built in lowest terms so that the kernel can
evaluate comparisons on it directly. -/
def qTenth : ℚ := ⟨1, 10, by norm_num, Nat.coprime_one_left _⟩

/-- The rational 0.05, built in lowest terms so that the kernel can
evaluate comparisons on it directly. -/
def qTwentieth : ℚ := ⟨1, 20, by norm_num, Nat.coprime_one_left _⟩

/-- A concrete checkpoint content, for concrete instantiations. -/
def cW : FullCkpt :=
  { rng := ⟨11, 12, 13, 14⟩, epoch := 2, state_dict := 42, optimizer := ⟨1, 9⟩,
    scheduler := 8, val_loss := 0, val_cider := qTenth, patience := 0,
    best_val_cider := qTenth, best_test_cider := 0, use_rl := false }

/-- A checkpoint directory holding `cW` in the "best" slot. -/
def fsW : FS := [(bestPath, cW)]

/-- A metric trace that drives a fresh run to its terminal checkpoint:
one improving epoch, then ten non-improving ones (five to switch to RL,
five more to exhaust patience in RL). -/
def msTerm : List (ℚ × ℚ) :=
  [(0, qTenth)] ++ List.replicate 10 ((0 : ℚ), qTwentieth)

/-! ### SCST reward computation (`Trainer.train_scst`, lines 200-211) -/

/-- `torch.mean` over a vector. An empty vector never arises in the code
(batches are nonempty); here `0/0 = 0` by rational convention. -/
def listMean (xs : List ℚ) : ℚ := xs.sum / xs.length

/-- `.view(batch_size, beam)` on the flat per-sample reward vector
returned by `compute_score` (line 207): cut into rows of `k`. -/
def reshapeRows (k : Nat) : List ℚ → List (List ℚ)
  | [] => []
  | x :: xs => (x :: xs.take (k - 1)) :: reshapeRows k (xs.drop (k - 1))
termination_by xs => xs.length
decreasing_by simp; omega

/-- Line 208: `reward_baseline = torch.mean(reward, dim=-1, keepdim=True)`:
per sample, the mean of the reward over the beam dimension. -/
def rewardBaseline (reward : List (List ℚ)) : List ℚ :=
  reward.map listMean

/-- Line 209: `loss = -torch.mean(log_probs, -1) * (reward - reward_baseline)`,
one entry per (sample, beam candidate); `log_probs` has a trailing token
dimension averaged away, and the baseline broadcasts over the beam. -/
def scstLossRows (logProbs : List (List (List ℚ))) (reward : List (List ℚ)) :
    List (List ℚ) :=
  (logProbs.zip (reward.zip (rewardBaseline reward))).map fun row =>
    (row.1.zip row.2.1).map fun cand =>
      -(listMean cand.1) * (cand.2 - row.2.2)

/-- Line 211: `loss = loss.mean()`, the mean over every entry of the
(batch, beam) loss matrix. -/
def scstLoss (logProbs : List (List (List ℚ))) (reward : List (List ℚ)) : ℚ :=
  listMean (scstLossRows logProbs reward).flatten

/-! ### `Trainer.evaluate_metrics` mapping construction (lines 125-150) -/

/-- `' '.join([k for k, g in itertools.groupby(gen_i)])` (line 141)
collapses runs of identical adjacent tokens to one token each. -/
def dedupConsecutive : List String → List String
  | [] => []
  | [a] => [a]
  | a :: b :: rest =>
    if a = b then dedupConsecutive (b :: rest)
    else a :: dedupConsecutive (b :: rest)

/-- The sample id `'%d_%d' % (it, i)` (lines 142-143). -/
def sampleKey (it i : Nat) : String :=
  toString it ++ "_" ++ toString i

/-- One batch seen by the evaluation loop: the reference captions of the
samples and the generated token sequences, positionally aligned. -/
structure EvalBatch where
  caps_gt : List (List String)
  caps_gen : List (List String)

/-- The entries lines 140-143 insert for batch number `it`:
`gen['%d_%d' % (it, i)] = [gen_i]` (with the consecutive-duplicate
collapse applied and tokens joined) and `gts['%d_%d' % (it, i)] = gts_i`,
for `i, (gts_i, gen_i) in enumerate(zip(caps_gt, caps_gen))`. -/
def batchEntries (it : Nat) (b : EvalBatch) :
    List (String × List String) × List (String × List String) :=
  let pairs := (b.caps_gt.zip b.caps_gen).enum
  (pairs.map fun p =>
     (sampleKey it p.1, [String.intercalate " " (dedupConsecutive p.2.2)]),
   pairs.map fun p => (sampleKey it p.1, p.2.1))

/-- The full evaluation loop of lines 127-144, building the `gen` and
`gts` mappings over all batches, batch counter `it` included.  The
mappings are association lists in insertion order (keys are inserted
fresh: `(it, i)` never repeats). -/
def buildGenGts (it : Nat) : List EvalBatch →
    List (String × List String) × List (String × List String)
  | [] => ([], [])
  | b :: bs =>
    let e := batchEntries it b
    let rest := buildGenGts (it + 1) bs
    (e.1 ++ rest.1, e.2 ++ rest.2)

/-- `evaluation.PTBTokenizer.tokenize` (lines 146-147) as the spec's
scorer collaborator: `tokenize(mapping(id -> text)) -> mapping(id ->
tokens)`, a per-value transformation that leaves the id keys alone. -/
def tokenizeMap (f : List String → List String)
    (m : List (String × List String)) : List (String × List String) :=
  m.map fun kv => (kv.1, f kv.2)

/-! ### Per-batch schedule stepping (`train_xe` lines 152-176,
`train_scst` lines 178-220) -/

/-- The trainer state a training pass touches: model weights and
optimizer internals (both mutated opaquely by `zero_grad` / `backward` /
`optim.step`) and the number of `scheduler.step()` calls so far. -/
structure PassState where
  weights : Nat
  optimInternal : Nat
  schedCount : Nat
  deriving Repr, DecidableEq

/-- One iteration of the batch loop of `train_xe` (lines 158-176):
forward, backward and `optim.step()` mutate weights and optimizer state
(opaque updates `updW`, `updO`), then line 176 calls
`self.scheduler.step()`. -/
def train_xe_batch (updW updO : Nat → Nat → Nat) (s : PassState) (b : Nat) :
    PassState :=
  { weights := updW s.weights b, optimInternal := updO s.optimInternal b,
    schedCount := s.schedCount + 1 }

/-- `Trainer.train_xe`: the batch loop over the epoch's batches. -/
def train_xe (updW updO : Nat → Nat → Nat) (s : PassState)
    (batches : List Nat) : PassState :=
  batches.foldl (train_xe_batch updW updO) s

/-- One iteration of the batch loop of `train_scst` (lines 190-220):
beam search, reward, backward and `optim.step()` mutate weights and
optimizer state; no `scheduler.step()` call appears in the loop body. -/
def train_scst_batch (updW updO : Nat → Nat → Nat) (s : PassState) (b : Nat) :
    PassState :=
  { weights := updW s.weights b, optimInternal := updO s.optimInternal b,
    schedCount := s.schedCount }

/-- `Trainer.train_scst`: the batch loop over the epoch's batches. -/
def train_scst (updW updO : Nat → Nat → Nat) (s : PassState)
    (batches : List Nat) : PassState :=
  batches.foldl (train_scst_batch updW updO) s

/-! ### Helper lemmas -/

theorem fsRead_fsWrite_self (fs : FS) (p : String) (c : FullCkpt) :
    fsRead (fsWrite fs p c) p = some c := by
  simp [fsRead, fsWrite]

theorem fsRead_fsWrite_ne (fs : FS) (p q : String) (c : FullCkpt) (h : p ≠ q) :
    fsRead (fsWrite fs p c) q = fsRead fs q := by
  simp [fsRead, fsWrite, h]

theorem lastPath_ne_bestPath : lastPath ≠ bestPath := by decide

/-- The file-system effect of one epoch: unconditional write of the
saved bundle to the "last" slot, then on a best epoch a copy of "last"
into "best". -/
theorem epochTail_fs_eq (fs : FS) (t : TrainerState) (u : Bool)
    (bv bt : ℚ) (p : Nat) (vl vc : ℚ) :
    (epochTail fs t u bv bt p vl vc).fs =
      (if (epochTail fs t u bv bt p vl vc).best then
        copyfile (fsWrite fs lastPath (epochTail fs t u bv bt p vl vc).savedCkpt)
          lastPath bestPath
       else fsWrite fs lastPath (epochTail fs t u bv bt p vl vc).savedCkpt) := rfl

theorem reshapeRows_one (flat : List ℚ) :
    reshapeRows 1 flat = flat.map (fun x => [x]) := by
  induction flat with
  | nil => simp [reshapeRows]
  | cons x xs ih => simp [reshapeRows, ih]

theorem listMean_singleton (x : ℚ) : listMean [x] = x := by
  simp [listMean]

theorem listMean_of_all_zero (l : List ℚ) (h : ∀ x ∈ l, x = 0) :
    listMean l = 0 := by
  simp [listMean, List.sum_eq_zero h]

theorem zip_map_single (l : List ℚ) :
    (l.map fun x => [x]).zip l = l.map fun x => ([x], x) := by
  have h := List.zip_map' (fun x : ℚ => [x]) id l
  simpa using h

theorem batchEntries_keys (it : Nat) (b : EvalBatch) :
    (batchEntries it b).1.map Prod.fst = (batchEntries it b).2.map Prod.fst := by
  simp [batchEntries, List.map_map]

theorem buildGenGts_keys (batches : List EvalBatch) : ∀ it : Nat,
    (buildGenGts it batches).1.map Prod.fst =
    (buildGenGts it batches).2.map Prod.fst := by
  induction batches with
  | nil => intro it; rfl
  | cons b bs ih =>
    intro it
    simp [buildGenGts, batchEntries_keys, ih]

/-- Patience bound for one epoch step: from a state with patience at
most 4, the saved checkpoint has patience at most 5 and carries
`use_rl = true` whenever its patience is 5; continuing (non-exit)
states again have patience at most 4. -/
theorem epochTail_saved_patience_bound (fs : FS) (t : TrainerState)
    (u : Bool) (bv bt : ℚ) (p : Nat) (vl vc : ℚ) (hp : p ≤ 4) :
    ((epochTail fs t u bv bt p vl vc).savedCkpt.patience ≤ 5 ∧
     ((epochTail fs t u bv bt p vl vc).savedCkpt.patience = 5 →
       (epochTail fs t u bv bt p vl vc).savedCkpt.use_rl = true)) ∧
    ((epochTail fs t u bv bt p vl vc).exit_train = false →
      (epochTail fs t u bv bt p vl vc).patience ≤ 4) := by
  by_cases hb : bv ≤ vc
  · simp [epochTail, policyUpdate, hb, mkSaveDict]
  · by_cases hp5 : p + 1 = 5
    · cases u <;> simp [epochTail, policyUpdate, hb, hp5, mkSaveDict]
    · cases u <;> simp [epochTail, policyUpdate, hb, hp5, mkSaveDict] <;> omega

/-- The loop invariant over a whole run: every persisted checkpoint of a
run started with patience at most 4 satisfies the patience bound. -/
theorem runLoop_saved_invariant (ms : List (ℚ × ℚ)) :
    ∀ (fs : FS) (t : TrainerState) (u : Bool) (bv bt : ℚ) (p : Nat),
      p ≤ 4 →
      ∀ c ∈ (runLoop fs t u bv bt p ms).ckpts,
        c.patience ≤ 5 ∧ (c.patience = 5 → c.use_rl = true) := by
  induction ms with
  | nil => intro fs t u bv bt p hp c hc; simp [runLoop] at hc
  | cons m ms ih =>
    intro fs t u bv bt p hp c hc
    obtain ⟨vl, vc⟩ := m
    have hstep := epochTail_saved_patience_bound fs t u bv bt p vl vc hp
    by_cases hex : (epochTail fs t u bv bt p vl vc).exit_train = true
    · simp only [runLoop, hex, if_true] at hc
      simp at hc
      subst hc
      exact hstep.1
    · simp only [runLoop, hex, if_false] at hc
      simp at hc
      rcases hc with rfl | hc
      · exact hstep.1
      · exact ih _ _ _ _ _ _ (hstep.2 (by simpa using hex)) c hc

/-! ### Claim theorems -/

/-- C4: for every trainer state and scalar-override bundle round-tripped
through `save_checkpoint` then `load_checkpoint` on the "last" slot, the
`epoch`, `best_val_cider`, `patience` and `use_rl` fields returned by
the load are identical to the values passed to the save. -/
theorem save_load_roundtrip (fs : FS) (t t2 : TrainerState) (u : Updates) :
    ((load_checkpoint (save_checkpoint fs t u) t2 lastPath).2.map LoadedDict.epoch
        = some t.epoch) ∧
    ((load_checkpoint (save_checkpoint fs t u) t2 lastPath).2.map LoadedDict.best_val_cider
        = some u.best_val_cider) ∧
    ((load_checkpoint (save_checkpoint fs t u) t2 lastPath).2.map LoadedDict.patience
        = some u.patience) ∧
    ((load_checkpoint (save_checkpoint fs t u) t2 lastPath).2.map LoadedDict.use_rl
        = some u.use_rl) := by
  simp [load_checkpoint, save_checkpoint, fsRead_fsWrite_self, mkSaveDict]

/-- C5: at the end of every epoch the run state is persisted to the
"last" slot unconditionally, and on an epoch marked best the "last"
content is duplicated into the "best" slot, so afterwards the "best"
slot equals the "last" slot and in particular their epoch fields agree. -/
theorem last_slot_persist_best_promotion (fs : FS) (t : TrainerState)
    (u : Bool) (bv bt : ℚ) (p : Nat) (vl vc : ℚ) :
    fsRead (epochTail fs t u bv bt p vl vc).fs lastPath =
      some (epochTail fs t u bv bt p vl vc).savedCkpt ∧
    ((epochTail fs t u bv bt p vl vc).best = true →
      fsRead (epochTail fs t u bv bt p vl vc).fs bestPath =
        fsRead (epochTail fs t u bv bt p vl vc).fs lastPath ∧
      (fsRead (epochTail fs t u bv bt p vl vc).fs bestPath).map FullCkpt.epoch =
        (fsRead (epochTail fs t u bv bt p vl vc).fs lastPath).map FullCkpt.epoch) := by
  rw [epochTail_fs_eq]
  by_cases hb : (epochTail fs t u bv bt p vl vc).best = true
  · simp [hb, copyfile, fsRead_fsWrite_self,
      fsRead_fsWrite_ne _ _ _ _ (Ne.symm lastPath_ne_bestPath)]
  · simp [hb, fsRead_fsWrite_self]

/-- C5 witness: a concrete best epoch, with both slots holding the same
checkpoint afterwards. -/
theorem last_slot_persist_best_promotion_witness :
    (epochTail [] t0 false 0 0 0 0 1).best = true ∧
    (fsRead (epochTail [] t0 false 0 0 0 0 1).fs bestPath =
      fsRead (epochTail [] t0 false 0 0 0 0 1).fs lastPath) :=
  ⟨by decide, ((last_slot_persist_best_promotion [] t0 false 0 0 0 0 1).2
      (by decide)).1⟩

/-- C6: `load_checkpoint` returns `None` (not an error) when the path is
absent, and `train` asked to resume from a `None` or nonexistent
checkpoint file name falls back to fresh state: `use_rl = False`,
`best_val_cider = 0`, `best_test_cider = 0`, `patience = 0`. -/
theorem missing_checkpoint_fresh_fallback :
    (∀ (fs : FS) (t : TrainerState) (f : String),
        fsRead fs f = none → load_checkpoint fs t f = (t, none)) ∧
    (∀ (fs : FS) (t : TrainerState), trainInit fs t none = freshInit t) ∧
    (∀ (fs : FS) (t : TrainerState) (f : String),
        fsRead fs f = none → trainInit fs t (some f) = freshInit t) ∧
    (∀ t : TrainerState, (freshInit t).use_rl = false ∧
        (freshInit t).best_val_cider = 0 ∧ (freshInit t).best_test_cider = 0 ∧
        (freshInit t).patience = 0) := by
  refine ⟨?_, ?_, ?_, ?_⟩
  · intro fs t f h; simp [load_checkpoint, h]
  · intro fs t; rfl
  · intro fs t f h; simp [trainInit, load_checkpoint, h]
  · intro t; exact ⟨rfl, rfl, rfl, rfl⟩

/-- C1: the (phase, patience) trajectory is a pure function of the
validation-metric sequence and the threshold constant 5, following the
rule that `val_cider >= best_val_cider` updates best, resets patience to
0 and marks the epoch best, while otherwise patience increments by 1; on
the metric sequence [0.1, 0.05, 0.05, 0.05, 0.05, 0.05] from fresh
supervised state the phase flips to REINFORCEMENT exactly at the 6th
evaluation (patience having reached 5 after 5 consecutive
non-improvements), and patience reaching 5 while already in the RL phase
exits the loop. -/
theorem patience_policy_trajectory :
    (∀ (bv : ℚ) (p : Nat) (vc : ℚ),
      (bv ≤ vc → policyUpdate bv p vc = (vc, 0, true)) ∧
      (¬ bv ≤ vc → policyUpdate bv p vc = (bv, p + 1, false))) ∧
    ((runLoop [] t0 false 0 0 0
        ([(0, qTenth)] ++ List.replicate 5 ((0 : ℚ), qTwentieth))).ckpts.map
        (fun c => (c.use_rl, c.patience)) =
      [(false, 0), (false, 1), (false, 2), (false, 3), (false, 4), (true, 0)]) ∧
    (∀ (fs : FS) (t : TrainerState) (bv bt vl vc : ℚ) (p : Nat),
      ¬ bv ≤ vc → p + 1 = 5 →
      (epochTail fs t true bv bt p vl vc).exit_train = true) := by
  refine ⟨?_, by decide, ?_⟩
  · intro bv p vc
    constructor <;> intro h <;> simp [policyUpdate, h]
  · intro fs t bv bt vl vc p h hp
    simp [epochTail, policyUpdate, h, hp]

/-- C1 witness: the policy rule and the RL exit at concrete inputs. -/
theorem patience_policy_trajectory_witness :
    policyUpdate 0 0 qTenth = (qTenth, 0, true) ∧
    (epochTail [] t0 true qTenth 0 4 0 qTwentieth).exit_train = true :=
  ⟨(patience_policy_trajectory.1 0 0 qTenth).1 (by decide),
   patience_policy_trajectory.2.2 [] t0 qTenth 0 0 qTwentieth 4 (by decide)
     (by decide)⟩

/-- C2 counterexample: in a fresh run whose two epochs produce identical
validation metrics, the code's `>=` comparison takes the best branch on
the second epoch, so the persisted patience trajectory is [0, 0] — the
claimed increment to 1 after the second epoch does not happen. -/
theorem identical_metrics_patience_counterexample :
    ((runLoop [] t0 false 0 0 0 [((0 : ℚ), 1), ((0 : ℚ), 1)]).ckpts.map
        FullCkpt.patience = [0, 0]) ∧
    ((runLoop [] t0 false 0 0 0 [((0 : ℚ), 1), ((0 : ℚ), 1)]).ckpts.map
        FullCkpt.patience ≠ [0, 1]) := by decide

/-- C2 amended: with a 2-sample validation set where both epochs produce
the identical (nonnegative) metric, the tie counts as an improvement
under `>=`: the second epoch is marked best again, `best_val_cider` is
reassigned the same value (numerically unchanged), and patience resets
to 0 rather than incrementing to 1. -/
theorem identical_metrics_tie_is_best (v : ℚ) (hv : 0 ≤ v) :
    ((runLoop [] t0 false 0 0 0 [(0, v), (0, v)]).ckpts.map
        (fun c => (c.patience, c.best_val_cider, c.use_rl)) =
      [(0, v, false), (0, v, false)]) ∧
    (epochTail [] t0 false v 0 0 0 v).best = true := by
  constructor
  · simp [runLoop, epochTail, policyUpdate, hv, mkSaveDict]
  · simp [epochTail, policyUpdate]

/-- C2 amended witness: the tie trajectory at metric value 1. -/
theorem identical_metrics_tie_is_best_witness :
    (0 : ℚ) ≤ 1 ∧
    ((runLoop [] t0 false 0 0 0 [((0 : ℚ), (1 : ℚ)), (0, 1)]).ckpts.map
        (fun c => (c.patience, c.best_val_cider, c.use_rl)) =
      [(0, 1, false), (0, 1, false)]) :=
  ⟨by decide, (identical_metrics_tie_is_best 1 (by decide)).1⟩

/-- C3: at the supervised-to-RL transition (patience reaching 5 while
`use_rl` is false) the optimizer is replaced by a freshly constructed
one with the fixed smaller learning rate 5e-6; the transition epoch is
necessarily not a best epoch, and the previously saved "best" checkpoint
is loaded back, which restores exactly the model weights and the RNG
states; the optimizer state and the scheduler state are not restored
from that checkpoint (the returned dict is discarded). -/
theorem rl_switch_frame_effects (fs : FS) (t : TrainerState)
    (bv bt vl vc : ℚ) (p : Nat) (c : FullCkpt)
    (hread : fsRead fs bestPath = some c)
    (hnb : ¬ bv ≤ vc) (hp : p + 1 = 5) :
    (epochTail fs t false bv bt p vl vc).switch_to_rl = true ∧
    (epochTail fs t false bv bt p vl vc).use_rl = true ∧
    (epochTail fs t false bv bt p vl vc).patience = 0 ∧
    (epochTail fs t false bv bt p vl vc).best = false ∧
    (epochTail fs t false bv bt p vl vc).trainer.optim = Adam (5 / 1000000) ∧
    (epochTail fs t false bv bt p vl vc).trainer.weights = c.state_dict ∧
    (epochTail fs t false bv bt p vl vc).trainer.rng = c.rng ∧
    (epochTail fs t false bv bt p vl vc).trainer.schedState = t.schedState := by
  simp [epochTail, policyUpdate, hnb, hp, load_checkpoint, hread]

/-- C3 witness: the transition at a concrete state with a concrete
"best" checkpoint on disk. -/
theorem rl_switch_frame_effects_witness :
    (fsRead fsW bestPath = some cW ∧ ¬ (1 : ℚ) ≤ 0 ∧ 4 + 1 = 5) ∧
    (epochTail fsW t0 false 1 0 4 0 0).trainer.weights = cW.state_dict ∧
    (epochTail fsW t0 false 1 0 4 0 0).trainer.rng = cW.rng ∧
    (epochTail fsW t0 false 1 0 4 0 0).trainer.schedState = t0.schedState :=
  ⟨⟨by decide, by decide, by decide⟩,
   (rl_switch_frame_effects fsW t0 1 0 0 0 4 cW (by decide) (by decide)
      (by decide)).2.2.2.2.2.1,
   (rl_switch_frame_effects fsW t0 1 0 0 0 4 cW (by decide) (by decide)
      (by decide)).2.2.2.2.2.2.1,
   (rl_switch_frame_effects fsW t0 1 0 0 0 4 cW (by decide) (by decide)
      (by decide)).2.2.2.2.2.2.2⟩

/-- C7: in the SCST reward computation with `training_beam_size == 1`,
the reward baseline (mean of the reward over the beam dimension) equals
the reward itself for every sample, so `reward - baseline` vanishes for
every candidate and the resulting loss is zero regardless of the log
probabilities — a degenerate case, not an error. -/
theorem beam_one_degenerate (flat : List ℚ) (logProbs : List (List (List ℚ))) :
    rewardBaseline (reshapeRows 1 flat) = flat ∧
    scstLoss logProbs (reshapeRows 1 flat) = 0 := by
  have hb : rewardBaseline (reshapeRows 1 flat) = flat := by
    simp [rewardBaseline, reshapeRows_one, List.map_map, Function.comp_def,
      listMean_singleton]
  have hb2 : rewardBaseline (flat.map fun x => [x]) = flat := by
    rw [← reshapeRows_one]; exact hb
  refine ⟨hb, listMean_of_all_zero _ ?_⟩
  intro y hy
  rw [List.mem_flatten] at hy
  obtain ⟨row, hrow, hyrow⟩ := hy
  simp only [scstLossRows, reshapeRows_one, hb2, List.mem_map] at hrow
  obtain ⟨z, hz, rfl⟩ := hrow
  simp only [List.mem_map] at hyrow
  obtain ⟨cand, hcand, rfl⟩ := hyrow
  have hz2 : z.2 ∈ (flat.map fun x => [x]).zip flat := (List.of_mem_zip hz).2
  rw [zip_map_single] at hz2
  obtain ⟨a, _, hza⟩ := List.mem_map.1 hz2
  have hc2 : cand.2 ∈ z.2.1 := (List.of_mem_zip hcand).2
  rw [← hza] at hc2
  simp only [List.mem_singleton] at hc2
  rw [hc2, ← hza]
  ring

/-- C8: in `evaluate_metrics`, the generated-caption mapping and the
reference mapping are built with identical keys inside the same loop, so
at the moment of scoring (after the key-preserving tokenization) the key
set of the generated mapping equals the key set of the reference
mapping; the abort-on-mismatch condition of the claim is therefore
vacuously maintained. -/
theorem eval_keys_aligned (batches : List EvalBatch)
    (fGen fGts : List String → List String) :
    (tokenizeMap fGen (buildGenGts 0 batches).1).map Prod.fst =
    (tokenizeMap fGts (buildGenGts 0 batches).2).map Prod.fst := by
  simp [tokenizeMap, List.map_map, Function.comp_def, buildGenGts_keys]

/-- C9 counterexample: the RL training pass advances the learning-rate
schedule zero times, not once per batch: a one-batch `train_scst` pass
leaves the scheduler step count at 0 instead of 1. -/
theorem scst_no_scheduler_step_counterexample :
    (train_scst (fun w _ => w) (fun o _ => o) ⟨0, 0, 0⟩ [0]).schedCount = 0 ∧
    (train_scst (fun w _ => w) (fun o _ => o) ⟨0, 0, 0⟩ [0]).schedCount ≠ 0 + 1 := by
  exact ⟨rfl, by decide⟩

/-- C9 amended: the supervised training pass advances the learning-rate
schedule exactly once per training batch, and the RL training pass never
advances it (its loop body has no `scheduler.step()` call). -/
theorem scheduler_steps_per_phase (updW updO : Nat → Nat → Nat)
    (s : PassState) (batches : List Nat) :
    (train_xe updW updO s batches).schedCount = s.schedCount + batches.length ∧
    (train_scst updW updO s batches).schedCount = s.schedCount := by
  induction batches generalizing s with
  | nil => simp [train_xe, train_scst]
  | cons b bs ih =>
    have h1 := (ih (train_xe_batch updW updO s b)).1
    have h2 := (ih (train_scst_batch updW updO s b)).2
    constructor
    · show (train_xe updW updO (train_xe_batch updW updO s b) bs).schedCount = _
      rw [h1]
      simp [train_xe_batch]
      omega
    · show (train_scst updW updO (train_scst_batch updW updO s b) bs).schedCount = _
      rw [h2]
      simp [train_scst_batch]

/-- C10 counterexample: the patience bound does not survive resumption
from the terminal checkpoint.  A fresh run driven to termination
persists a final checkpoint with patience 5 and `use_rl = true`; a run
resumed from that "last" checkpoint with one further non-improving
epoch persists a checkpoint with patience 6, violating
`0 <= patience <= 5`. -/
theorem terminal_resume_patience_counterexample :
    (((train [] t0 none msTerm).ckpts.getLast?).map
        (fun c => (c.patience, c.use_rl)) = some (5, true)) ∧
    ((train (train [] t0 none msTerm).fs t0 (some lastPath)
        [((0 : ℚ), qTwentieth)]).ckpts.map
        (fun c => (c.patience, c.use_rl)) = [(6, true)]) ∧
    ¬ (6 ≤ 5) := by
  refine ⟨by decide, by decide, by decide⟩

/-- C10 amended: every checkpoint persisted by a training run started
from fresh state — and more generally by any run whose starting patience
is at most 4, which covers resumption from every non-terminal persisted
checkpoint — satisfies `patience <= 5`, with `patience = 5` only
together with `use_rl = true` (the terminal checkpoint); in particular
no persisted checkpoint has `use_rl = false` and `patience = 5`, so such
a resumed run never immediately re-fires the supervised-to-RL switch.
Only resumption from the terminal checkpoint itself (patience 5,
`use_rl = true`) escapes the bound. -/
theorem persisted_checkpoint_patience_invariant :
    (∀ (fs : FS) (t : TrainerState) (ms : List (ℚ × ℚ)),
      ∀ c ∈ (train fs t none ms).ckpts,
        c.patience ≤ 5 ∧ (c.patience = 5 → c.use_rl = true)) ∧
    (∀ (fs : FS) (t : TrainerState) (u : Bool) (bv bt : ℚ) (p : Nat)
        (ms : List (ℚ × ℚ)), p ≤ 4 →
      ∀ c ∈ (runLoop fs t u bv bt p ms).ckpts,
        c.patience ≤ 5 ∧ (c.patience = 5 → c.use_rl = true)) := by
  constructor
  · intro fs t ms c hc
    exact runLoop_saved_invariant ms fs t false 0 0 0 (by omega) c hc
  · intro fs t u bv bt p ms hp c hc
    exact runLoop_saved_invariant ms fs t u bv bt p hp c hc

/-- C10 amended witness: the invariant evaluated on a concrete one-epoch
fresh run. -/
theorem persisted_checkpoint_patience_invariant_witness :
    ((runLoop [] t0 false 0 0 0 [((0 : ℚ), (1 : ℚ))]).ckpts.headI ∈
      (runLoop [] t0 false 0 0 0 [((0 : ℚ), (1 : ℚ))]).ckpts) ∧
    ((runLoop [] t0 false 0 0 0 [((0 : ℚ), (1 : ℚ))]).ckpts.headI.patience ≤ 5 ∧
     ((runLoop [] t0 false 0 0 0 [((0 : ℚ), (1 : ℚ))]).ckpts.headI.patience = 5 →
      (runLoop [] t0 false 0 0 0 [((0 : ℚ), (1 : ℚ))]).ckpts.headI.use_rl = true)) :=
  ⟨by decide,
   persisted_checkpoint_patience_invariant.2 [] t0 false 0 0 0
     [((0 : ℚ), (1 : ℚ))] (by decide) _ (by decide)⟩

/-- C6 witness: a concrete absent path, with the `None` result and the
fresh fallback. -/
theorem missing_checkpoint_fresh_fallback_witness :
    fsRead [] "ckpt.pth" = none ∧
    load_checkpoint [] t0 "ckpt.pth" = (t0, none) ∧
    trainInit [] t0 (some "ckpt.pth") = freshInit t0 :=
  ⟨rfl, missing_checkpoint_fresh_fallback.1 [] t0 "ckpt.pth" rfl,
   missing_checkpoint_fresh_fallback.2.2.1 [] t0 "ckpt.pth" rfl⟩

end OVIC
